import Mathlib

/-!
# Verification of the smartbook user-account service

Shallow embedding of `app/models.py` and `app/main.py`: the three database
tables become lists of structures, each HTTP handler becomes a Lean function
from the database state (plus the nondeterministic inputs the handler draws on:
current time, bcrypt salt, random code choice, environment) to the new state
and an HTTP outcome.  Python exceptions that the handlers raise deliberately
(`HTTPException`) and exceptions that escape the handler (and surface as a
generic server error) are both modelled by an error type.
-/

set_option maxRecDepth 4000

namespace Smartbook

/-- Outcome of a request handler: a deliberate `HTTPException status detail`,
or a Python exception that escapes the handler uncaught (FastAPI turns it
into a generic 500 response). -/
inductive PyError where
  | http (statusCode : Nat) (detail : String)
  | uncaught (exc : String)
deriving DecidableEq, Repr

deriving instance DecidableEq for Except

/-- Row of the `users` table (`models.User`).  Note that `models.py` puts no
unique constraint on `user_login` or `user_mail`. -/
structure User where
  user_id : Nat
  user_login : String
  user_password : String
  user_mail : String
deriving DecidableEq, Repr

/-- Row of the `records` table (`models.Records`). -/
structure Records where
  record_id : Nat
  record_name : String
  record_description : String
  user_id_fk : Nat
deriving DecidableEq, Repr

/-- Row of the `pending_users` table (`models.PendingUser`).  `user_login`
and `user_mail` carry database-level `unique=True` constraints.  Datetimes
are modelled as natural numbers (seconds). -/
structure PendingUser where
  id : Nat
  user_login : String
  user_password : String
  user_mail : String
  confirmation_code : String
  expires_at : Nat
  created_at : Nat
deriving DecidableEq, Repr

/-- The whole database.  `next_user_id` / `next_pending_id` model the
autoincrementing primary keys. -/
structure DB where
  users : List User
  records : List Records
  pending_users : List PendingUser
  next_user_id : Nat
  next_pending_id : Nat
deriving DecidableEq, Repr

/-- `RegisterRequest` pydantic schema: exactly the three declared fields. -/
structure RegisterRequest where
  user_login : String
  user_password : String
  user_mail : String
deriving DecidableEq, Repr

/-- `LoginRequest` pydantic schema. -/
structure LoginRequest where
  user_login : String
  user_password : String
deriving DecidableEq, Repr

/-- `ConfirmRequest` pydantic schema. -/
structure ConfirmRequest where
  email : String
  code : String
deriving DecidableEq, Repr

/-- `UserResponse` pydantic schema: the public fields only, no password. -/
structure UserResponse where
  user_id : Nat
  user_login : String
  user_mail : String
deriving DecidableEq, Repr

/-! ## Python `str` on nonnegative integers -/

/-- Little-endian decimal digits of `n`, with explicit fuel so that the
function is structurally recursive (and hence kernel-computable). -/
def revDigits : Nat → Nat → List Nat
  | 0, _ => []
  | fuel + 1, n => if n = 0 then [] else n % 10 :: revDigits fuel (n / 10)

/-- Model of Python `str` applied to a nonnegative integer: its decimal
digit string, most significant digit first. -/
def pyStr (n : Nat) : String :=
  if n = 0 then "0" else String.mk (((revDigits n n).reverse).map Nat.digitChar)

/-- Model of Python `random.randint(lo, hi)` (both endpoints inclusive):
`choice` is the draw of the random source. -/
def randint (lo hi choice : Nat) : Nat := lo + choice % (hi + 1 - lo)

/-! ## bcrypt

The service calls the `bcrypt` library directly.  We model it symbolically:
a hash token records the scheme prefix, the salt and the password, salts
contain no `'$'`, and `checkpw` re-derives the salt from the token.
Faithful to the library's documented behaviour, `checkpw` raises
`ValueError` when the token does not parse as a bcrypt hash (invalid salt);
it never returns on such input. -/

/-- Model of `bcrypt.hashpw(password, salt)` (decoded to `str`). -/
def bcrypt_hashpw (password salt : String) : String :=
  "$2b$12$" ++ salt ++ "$" ++ password

/-- Model of `bcrypt.gensalt()`: an arbitrary draw `seed` of the random
source, rendered as a `'$'`-free string. -/
def bcrypt_gensalt (seed : Nat) : String := "s" ++ pyStr seed

/-- A salt is well-formed when it contains no `'$'` delimiter (true of every
real bcrypt salt, whose characters are drawn from a base64 alphabet). -/
def saltOk (s : String) : Bool := s.data.all (fun c => c ≠ '$')

/-- Does a stored token parse as a bcrypt hash? -/
def isBcryptToken (h : String) : Bool := "$2b$12$".data.isPrefixOf h.data

/-- The salt recorded inside a well-formed token. -/
def tokenSalt (h : String) : String :=
  String.mk ((h.data.drop 7).takeWhile (fun c => c ≠ '$'))

/-- Model of `bcrypt.checkpw(password, token)`: on a token that does not
parse as a bcrypt hash it raises `ValueError` (invalid salt); otherwise it
recomputes the hash with the token's salt and compares. -/
def bcrypt_checkpw (password h : String) : Except PyError Bool :=
  if isBcryptToken h then .ok (h == bcrypt_hashpw password (tokenSalt h))
  else .error (.uncaught "ValueError: Invalid salt")

/-- `hash_password` from `main.py`: `bcrypt.hashpw(password.encode(),
bcrypt.gensalt()).decode()`, with the salt draw made explicit. -/
def hash_password (password : String) (salt : String) : String :=
  bcrypt_hashpw password salt

/-! ## Handlers -/

/-- `POST /login` (`main.login`).  Looks the user up by login; absence gives
HTTP 400 "Invalid login or password", a failed `bcrypt.checkpw` gives
HTTP 401 "Invalid password"; the `checkpw` call sits under no
try/except, so an exception it raises escapes the handler. -/
def login (db : DB) (request : LoginRequest) : Except PyError UserResponse :=
  match db.users.find? (fun u => u.user_login == request.user_login) with
  | none => .error (.http 400 "Invalid login or password")
  | some user =>
    match bcrypt_checkpw request.user_password user.user_password with
    | .error e => .error e
    | .ok false => .error (.http 401 "Invalid password")
    | .ok true =>
      .ok { user_id := user.user_id, user_login := user.user_login,
            user_mail := user.user_mail }

/-- Response body of `POST /register/init`. -/
structure InitResponse where
  message : String
  code_hint : String
deriving DecidableEq, Repr

/-- The work item handed to the background thread of `init_registration`:
the confirmation code and the destination address. -/
structure MailJob where
  code : String
  goal_user : String
deriving DecidableEq, Repr

/-- Committing an insert into `pending_users` raises `IntegrityError`
exactly when the new row violates one of the table's unique constraints
(`user_login`, `user_mail`) against an existing row. -/
def insertPending (rows : List PendingUser) (row : PendingUser) :
    Except Unit (List PendingUser) :=
  if rows.any (fun q => q.user_login == row.user_login ||
      q.user_mail == row.user_mail) then
    .error ()
  else
    .ok (rows ++ [row])

/-- `POST /register/init` (`main.init_registration`).  Hashes the password,
draws a six-digit code, inserts a `PendingUser` expiring ten minutes from
now, and on `IntegrityError` rolls back and answers HTTP 400.  The successful
result carries the response body together with the `MailJob` handed to the
detached best-effort email thread; the handler returns without consulting
that thread. -/
def init_registration (db : DB) (data : RegisterRequest) (now : Nat)
    (salt : String) (choice : Nat) (smtpName : String) :
    DB × Except PyError (InitResponse × MailJob) :=
  let hashed := hash_password data.user_password salt
  let code := pyStr (randint 100000 999999 choice)
  let pending : PendingUser :=
    { id := db.next_pending_id
      user_login := data.user_login
      user_password := hashed
      user_mail := data.user_mail
      confirmation_code := code
      expires_at := now + 10 * 60
      created_at := now }
  match insertPending db.pending_users pending with
  | .error () =>
    (db, .error (.http 400 "Login or email already in use"))
  | .ok rows =>
    ({ db with pending_users := rows, next_pending_id := db.next_pending_id + 1 },
     .ok ({ message := "Code sent to email",
            code_hint := smtpName ++ " " ++ data.user_mail },
          { code := code, goal_user := data.user_mail }))

/-- Running `init_registration` together with its background email dispatch:
`mailer` models the mail transport (`True` = delivered).  The dispatch
outcome is logged and swallowed; only the detached boolean records it. -/
def run_init_with_mailer (mailer : String → String → Bool) (db : DB)
    (data : RegisterRequest) (now : Nat) (salt : String) (choice : Nat)
    (smtpName : String) :
    (DB × Except PyError InitResponse) × Bool :=
  match init_registration db data now salt choice smtpName with
  | (db', .error e) => ((db', .error e), false)
  | (db', .ok (resp, job)) => ((db', .ok resp), mailer job.code job.goal_user)

/-- `POST /register/confirm` (`main.confirm_registration`).  Finds the
pending row matching the email and code exactly; answers HTTP 400 when there
is none or when `expires_at < now`; otherwise inserts the account, deletes
the pending row and commits. -/
def confirm_registration (db : DB) (confirm : ConfirmRequest) (now : Nat) :
    DB × Except PyError String :=
  match db.pending_users.find? (fun p =>
      p.user_mail == confirm.email && p.confirmation_code == confirm.code) with
  | none => (db, .error (.http 400 "Invalid or expired code"))
  | some pending =>
    if pending.expires_at < now then
      (db, .error (.http 400 "Invalid or expired code"))
    else
      let user : User :=
        { user_id := db.next_user_id
          user_login := pending.user_login
          user_password := pending.user_password
          user_mail := pending.user_mail }
      ({ db with
          users := db.users ++ [user]
          pending_users := db.pending_users.filter (fun p => p.id ≠ pending.id)
          next_user_id := db.next_user_id + 1 },
       .ok "success")

/-- `RegisterRequest` declares no `user_id` field, so the attribute access
`user.user_id` in `main.register`'s return statement raises
`AttributeError`: there is no value to read. -/
def registerRequestUserId (_ : RegisterRequest) : Option Nat := none

/-- `POST /register` (`main.register`).  Checks login and mail for
duplicates among confirmed users only, hashes, inserts and commits; the
return statement then reads `user.user_id` from the *request* object, which
has no such attribute, so the handler raises after the commit. -/
def register (db : DB) (user : RegisterRequest) (salt : String) :
    DB × Except PyError UserResponse :=
  if (db.users.find? (fun u => u.user_login == user.user_login)).isSome then
    (db, .error (.http 400 "Login already taken"))
  else if (db.users.find? (fun u => u.user_mail == user.user_mail)).isSome then
    (db, .error (.http 400 "Mail already taken"))
  else
    let hashed := hash_password user.user_password salt
    let db_user : User :=
      { user_id := db.next_user_id
        user_login := user.user_login
        user_password := hashed
        user_mail := user.user_mail }
    let db' : DB :=
      { db with users := db.users ++ [db_user],
                next_user_id := db.next_user_id + 1 }
    match registerRequestUserId user with
    | some i =>
      (db', .ok { user_id := i, user_login := user.user_login,
                  user_mail := user.user_mail })
    | none => (db', .error (.uncaught "AttributeError"))

/-- `GET /users` (`main.get_users`): the public fields of every user. -/
def get_users (db : DB) : List UserResponse :=
  db.users.map (fun u =>
    { user_id := u.user_id, user_login := u.user_login,
      user_mail := u.user_mail })

/-- `DELETE /users/clear` (`main.clear_users`): deletes every `Records` row,
then every `User` row, then commits. -/
def clear_users (db : DB) : DB × String :=
  let db1 : DB := { db with records := [] }
  let db2 : DB := { db1 with users := [] }
  (db2, "All users and records deleted")

/-! ## Supporting lemmas -/

/-- `takeWhile` runs past a block of characters that all satisfy the
predicate. -/
theorem takeWhile_append_of_all {p : Char → Bool} (l₁ l₂ : List Char)
    (h : ∀ c ∈ l₁, p c = true) :
    List.takeWhile p (l₁ ++ l₂) = l₁ ++ List.takeWhile p l₂ := by
  induction l₁ with
  | nil => simp
  | cons a l ih =>
    simp only [List.cons_append, List.takeWhile_cons, h a (by simp)]
    simp [ih (fun c hc => h c (by simp [hc]))]

/-- A token produced by `bcrypt_hashpw` parses as a bcrypt hash. -/
theorem isBcryptToken_hashpw (p s : String) :
    isBcryptToken (bcrypt_hashpw p s) = true := by
  simp only [isBcryptToken, bcrypt_hashpw, String.data_append,
    List.append_assoc, List.isPrefixOf_iff_prefix]
  exact List.prefix_append _ _

/-- `checkpw` recovers the salt of a well-formed token. -/
theorem tokenSalt_hashpw (p s : String) (hs : saltOk s = true) :
    tokenSalt (bcrypt_hashpw p s) = s := by
  apply String.ext
  have h7 : (7 : Nat) = ("$2b$12$" : String).data.length := by decide
  simp only [tokenSalt, bcrypt_hashpw, String.data_append, List.append_assoc]
  rw [h7, List.drop_left]
  rw [takeWhile_append_of_all s.data _ ?_]
  · simp [List.takeWhile]
  · intro c hc
    simp only [saltOk, List.all_eq_true] at hs
    exact hs c hc

/-- `bcrypt_hashpw` is injective in the password for a fixed salt. -/
theorem hashpw_inj {p q s : String} (h : bcrypt_hashpw p s = bcrypt_hashpw q s) :
    p = q := by
  apply String.ext
  have hd := congrArg String.data h
  simpa [bcrypt_hashpw, String.data_append] using hd

/-- A bcrypt hash token is never the plaintext it hashes. -/
theorem hashpw_ne_password (p s : String) : bcrypt_hashpw p s ≠ p := by
  intro h
  have hlen := congrArg (fun t => t.data.length) h
  have h7 : ("$2b$12$" : String).data.length = 7 := by decide
  simp only [bcrypt_hashpw, String.data_append, List.length_append,
    List.length_cons, List.length_nil] at hlen
  omega

/-- On a token produced by `bcrypt_hashpw` with a well-formed salt,
`checkpw` decides password equality and raises nothing. -/
theorem checkpw_hashpw (q p s : String) (hs : saltOk s = true) :
    bcrypt_checkpw q (bcrypt_hashpw p s) = .ok (q == p) := by
  unfold bcrypt_checkpw
  rw [isBcryptToken_hashpw, if_pos rfl, tokenSalt_hashpw p s hs]
  congr 1
  by_cases hqp : q = p
  · subst hqp; simp
  · have hne : bcrypt_hashpw p s ≠ bcrypt_hashpw q s := fun h => hqp (hashpw_inj h).symm
    simp [hne, hqp]

/-- The fuel-based decimal digit list agrees with `Nat.digits 10`. -/
theorem revDigits_eq_digits : ∀ (fuel n : Nat), n ≤ fuel →
    revDigits fuel n = Nat.digits 10 n := by
  intro fuel
  induction fuel with
  | zero =>
    intro n hn
    interval_cases n
    simp [revDigits]
  | succ f ih =>
    intro n hn
    by_cases h0 : n = 0
    · subst h0; simp [revDigits]
    · have hd : n / 10 < n := Nat.div_lt_self (Nat.pos_of_ne_zero h0) (by norm_num)
      rw [Nat.digits_def' (b := 10) (by norm_num) (Nat.pos_of_ne_zero h0)]
      simp only [revDigits, h0, if_false]
      rw [ih (n / 10) (by omega)]

/-- For positive `n`, `pyStr n` spells the base-10 digits of `n`. -/
theorem pyStr_data_of_ne_zero {n : Nat} (hn : n ≠ 0) :
    (pyStr n).data = ((Nat.digits 10 n).reverse).map Nat.digitChar := by
  simp [pyStr, hn, revDigits_eq_digits n n le_rfl]

/-- A six-digit value prints as six characters. -/
theorem pyStr_length_of_range {n : Nat} (h1 : 100000 ≤ n) (h2 : n ≤ 999999) :
    (pyStr n).length = 6 := by
  have hn : n ≠ 0 := by omega
  show (pyStr n).data.length = 6
  rw [pyStr_data_of_ne_zero hn]
  have hlog : Nat.log 10 n = 5 :=
    Nat.log_eq_of_pow_le_of_lt_pow (by norm_num; omega) (by norm_num; omega)
  simp [Nat.digits_len 10 n (by norm_num) hn, hlog]

/-- A nonzero decimal digit never prints as the character `'0'`. -/
theorem digitChar_ne_zero_char {d : Nat} (h0 : d ≠ 0) (h10 : d < 10) :
    Nat.digitChar d ≠ '0' := by
  interval_cases d
  · exact absurd rfl h0
  all_goals decide

/-- A six-digit value prints with a nonzero leading character. -/
theorem pyStr_head_ne_zero {n : Nat} (h1 : 100000 ≤ n) (h2 : n ≤ 999999) :
    (pyStr n).data.head? ≠ some '0' := by
  have hn : n ≠ 0 := by omega
  rw [pyStr_data_of_ne_zero hn, List.head?_map, List.head?_reverse]
  have hne : Nat.digits 10 n ≠ [] := Nat.digits_ne_nil_iff_ne_zero.mpr hn
  rw [List.getLast?_eq_getLast _ hne]
  have hlast : (Nat.digits 10 n).getLast hne ≠ 0 := Nat.getLast_digit_ne_zero 10 hn
  have hlt : (Nat.digits 10 n).getLast hne < 10 :=
    Nat.digits_lt_base (by norm_num) (List.getLast_mem hne)
  simp only [Option.map_some']
  intro hcontra
  exact digitChar_ne_zero_char hlast hlt (Option.some.inj hcontra)

/-! ## Concrete states used by witnesses and counterexamples -/

/-- The freshly created database: empty tables, counters at 1. -/
def dbEmpty : DB := ⟨[], [], [], 1, 1⟩

/-- One confirmed account, login `"a"`, mail `"a@x"`, bcrypt-hashed password. -/
def dbAlice : DB := ⟨[⟨1, "a", bcrypt_hashpw "pw" "s", "a@x"⟩], [], [], 2, 1⟩

/-- One confirmed account whose stored password is not a bcrypt token. -/
def dbMallory : DB := ⟨[⟨1, "a", "nothash", "a@x"⟩], [], [], 2, 1⟩

/-- One pending registration whose code expires at time 100. -/
def dbBoundary : DB := ⟨[], [], [⟨1, "bob", "h", "b@x", "123456", 100, 0⟩], 1, 2⟩

/-- A confirmed account with login `"a"` next to a pending registration that
also carries login `"a"` (under a different email). -/
def dbConfirmDup : DB :=
  ⟨[⟨1, "a", "h", "a@x"⟩], [], [⟨1, "a", "h2", "b@x", "123456", 100, 0⟩], 2, 2⟩

/-- No two confirmed accounts share a login, and none share an email. -/
def noDupAccounts (db : DB) : Prop :=
  (db.users.map User.user_login).Nodup ∧ (db.users.map User.user_mail).Nodup

instance (db : DB) : Decidable (noDupAccounts db) :=
  inferInstanceAs (Decidable (_ ∧ _))

/-! ## Claims -/

/-- C10: `clear_users` empties the `records` and `users` tables and leaves
`pending_users` (and everything else) untouched, for every state. -/
theorem c10_clear_users_frame (db : DB) :
    clear_users db =
      ({ db with users := [], records := [] }, "All users and records deleted") ∧
    (clear_users db).1.pending_users = db.pending_users ∧
    (clear_users db).1.users = [] ∧ (clear_users db).1.records = [] :=
  ⟨rfl, rfl, rfl, rfl⟩

/-- C4: evaluating `register` at a fresh login and email shows the account
row is inserted and committed, but the handler then raises `AttributeError`
instead of returning the created account's public fields, because the return
statement reads `user_id` off the request object. -/
theorem c4_register_attribute_error :
    register dbEmpty ⟨"alice", "pw", "alice@x.com"⟩ "s" =
      (⟨[⟨1, "alice", hash_password "pw" "s", "alice@x.com"⟩], [], [], 2, 1⟩,
       .error (.uncaught "AttributeError")) := rfl

/-- C2 counterexample: a confirmation at exactly `now = expires_at` (both
100) succeeds and creates the account, whereas the claim says every confirm
with `now >= expires_at` fails with NotFoundOrExpired. -/
theorem c2_counterexample :
    (confirm_registration dbBoundary ⟨"b@x", "123456"⟩ 100).2 = .ok "success" ∧
    (confirm_registration dbBoundary ⟨"b@x", "123456"⟩ 100).1.users =
      [⟨1, "bob", "h", "b@x"⟩] :=
  ⟨rfl, rfl⟩

/-- C2 amended: `confirm` succeeds exactly when a pending row matches the
email and code and `now ≤ expires_at` (so the boundary instant still
succeeds; only `now > expires_at` is expired), and every failure leaves the
database unchanged and reports HTTP 400 "Invalid or expired code". -/
theorem c2_confirm_boundary (db : DB) (c : ConfirmRequest) (now : Nat) :
    ((confirm_registration db c now).2 = .ok "success" ↔
      ∃ p, db.pending_users.find? (fun q =>
          q.user_mail == c.email && q.confirmation_code == c.code) = some p ∧
        now ≤ p.expires_at) ∧
    ((confirm_registration db c now).2 = .ok "success" ∨
      confirm_registration db c now =
        (db, .error (.http 400 "Invalid or expired code"))) := by
  cases hf : db.pending_users.find? (fun q =>
      q.user_mail == c.email && q.confirmation_code == c.code) with
  | none =>
    have hres : confirm_registration db c now =
        (db, .error (.http 400 "Invalid or expired code")) := by
      unfold confirm_registration; rw [hf]
    rw [hres]
    refine ⟨?_, Or.inr rfl⟩
    simp
  | some p =>
    by_cases hlt : p.expires_at < now
    · have hres : confirm_registration db c now =
          (db, .error (.http 400 "Invalid or expired code")) := by
        unfold confirm_registration
        rw [hf]
        simp [hlt]
      rw [hres]
      refine ⟨⟨fun h => absurd h (by simp), ?_⟩, Or.inr rfl⟩
      rintro ⟨q, hq, hle⟩
      cases Option.some.inj hq
      omega
    · have hok : (confirm_registration db c now).2 = .ok "success" := by
        unfold confirm_registration
        rw [hf]
        simp [hlt]
      exact ⟨⟨fun _ => ⟨p, rfl, by omega⟩, fun _ => hok⟩, Or.inl hok⟩

/-- C3 counterexample: with login `"a"` and mail `"a@x"` already present
among confirmed accounts, `init` nevertheless succeeds and stages a pending
row, whereas the claim says it must be rejected with DuplicateIdentity. -/
theorem c3_counterexample :
    (init_registration dbAlice ⟨"a", "pw2", "a@x"⟩ 0 "s" 0 "smtp").2.isOk = true ∧
    (init_registration dbAlice ⟨"a", "pw2", "a@x"⟩ 0 "s" 0 "smtp").1.pending_users.length = 1 :=
  ⟨rfl, rfl⟩

/-- C3 amended: `init` is rejected with HTTP 400 "Login or email already in
use" (and no state change) exactly when the login or the email collides with
an existing `pending_users` row — expired or not; collisions with confirmed
accounts are not checked and never cause rejection. -/
theorem c3_init_duplicate_policy (db : DB) (data : RegisterRequest) (now : Nat)
    (salt : String) (choice : Nat) (smtp : String) :
    (init_registration db data now salt choice smtp =
        (db, .error (.http 400 "Login or email already in use")) ↔
      db.pending_users.any (fun q => q.user_login == data.user_login ||
        q.user_mail == data.user_mail) = true) ∧
    ((init_registration db data now salt choice smtp).2.isOk = true ∨
      (init_registration db data now salt choice smtp).1 = db) := by
  unfold init_registration insertPending
  by_cases hc : db.pending_users.any (fun q => q.user_login == data.user_login ||
      q.user_mail == data.user_mail) = true
  · simp [hc]
  · have hc' : (db.pending_users.any fun q => q.user_login == data.user_login ||
        q.user_mail == data.user_mail) = false := by simpa using hc
    refine ⟨by simp [hc'], Or.inl ?_⟩
    simp [hc', Except.isOk, Except.toBool]

/-- C5 counterexample: on the same store, a wrong password for the existing
login `"a"` answers HTTP 401 "Invalid password" while the unknown login
`"b"` answers HTTP 400 "Invalid login or password" — different status codes
and different messages, so the caller can tell which part was wrong. -/
theorem c5_counterexample :
    login dbAlice ⟨"a", "wrong"⟩ = .error (.http 401 "Invalid password") ∧
    login dbAlice ⟨"b", "pw"⟩ = .error (.http 400 "Invalid login or password") ∧
    PyError.http 401 "Invalid password" ≠ PyError.http 400 "Invalid login or password" :=
  ⟨rfl, rfl, by decide⟩

/-- C5 amended: a wrong password on an existing account (stored hash well
formed) always yields HTTP 401 "Invalid password", while an unknown login
always yields HTTP 400 "Invalid login or password": the two failures are
distinguishable, not an identity-agnostic InvalidCredentials. -/
theorem c5_login_error_split (db db' : DB) (req req' : LoginRequest) (u : User)
    (p s : String)
    (hfind : db.users.find? (fun x => x.user_login == req.user_login) = some u)
    (hhash : u.user_password = bcrypt_hashpw p s)
    (hs : saltOk s = true)
    (hwrong : req.user_password ≠ p)
    (hfind' : db'.users.find? (fun x => x.user_login == req'.user_login) = none) :
    login db req = .error (.http 401 "Invalid password") ∧
    login db' req' = .error (.http 400 "Invalid login or password") := by
  constructor
  · have hc := checkpw_hashpw req.user_password p s hs
    have hbeq : (req.user_password == p) = false := by
      simp [hwrong]
    rw [hbeq] at hc
    simp only [login, hfind, hhash, hc]
  · simp only [login, hfind']

/-- C5 witness: the amended statement evaluated on `dbAlice`. -/
theorem c5_witness :
    dbAlice.users.find? (fun x => x.user_login == ("a" : String)) =
      some ⟨1, "a", bcrypt_hashpw "pw" "s", "a@x"⟩ ∧
    saltOk "s" = true ∧
    ("wrong" : String) ≠ "pw" ∧
    dbAlice.users.find? (fun x => x.user_login == ("b" : String)) = none ∧
    (login dbAlice ⟨"a", "wrong"⟩ = .error (.http 401 "Invalid password") ∧
     login dbAlice ⟨"b", "pw"⟩ = .error (.http 400 "Invalid login or password")) :=
  ⟨by decide, by decide, by decide, by decide,
   c5_login_error_split dbAlice dbAlice ⟨"a", "wrong"⟩ ⟨"b", "pw"⟩
     ⟨1, "a", bcrypt_hashpw "pw" "s", "a@x"⟩ "pw" "s"
     (by decide) rfl (by decide) (by decide) (by decide)⟩

/-- C7 counterexample: `checkpw` on a malformed stored token raises
`ValueError` instead of returning `false`, and `login` does not catch it, so
the request fails with an uncaught server error, not InvalidCredentials. -/
theorem c7_counterexample :
    bcrypt_checkpw "pw" "nothash" = .error (.uncaught "ValueError: Invalid salt") ∧
    login dbMallory ⟨"a", "pw"⟩ = .error (.uncaught "ValueError: Invalid salt") :=
  ⟨rfl, rfl⟩

/-- C7 amended: password verification is total only on well-formed bcrypt
tokens (where it returns a boolean); on a malformed stored token `checkpw`
raises `ValueError` and `login` propagates it past the boundary as an
uncaught server error rather than failing with InvalidCredentials. -/
theorem c7_checkpw_totality (db : DB) (req : LoginRequest) (u : User)
    (p h : String)
    (hfind : db.users.find? (fun x => x.user_login == req.user_login) = some u)
    (hbad : isBcryptToken u.user_password = false)
    (hgood : isBcryptToken h = true) :
    login db req = .error (.uncaught "ValueError: Invalid salt") ∧
    bcrypt_checkpw p h = .ok (h == bcrypt_hashpw p (tokenSalt h)) := by
  constructor
  · have hc : bcrypt_checkpw req.user_password u.user_password =
        .error (.uncaught "ValueError: Invalid salt") := by
      unfold bcrypt_checkpw
      rw [hbad]
      simp
    simp only [login, hfind, hc]
  · unfold bcrypt_checkpw
    rw [hgood]
    simp

/-- C7 witness: the amended statement evaluated on `dbMallory` and a
well-formed token. -/
theorem c7_witness :
    dbMallory.users.find? (fun x => x.user_login == ("a" : String)) =
      some ⟨1, "a", "nothash", "a@x"⟩ ∧
    isBcryptToken "nothash" = false ∧
    isBcryptToken (bcrypt_hashpw "x" "s") = true ∧
    (login dbMallory ⟨"a", "pw"⟩ = .error (.uncaught "ValueError: Invalid salt") ∧
     bcrypt_checkpw "x" (bcrypt_hashpw "x" "s") =
       .ok (bcrypt_hashpw "x" "s" == bcrypt_hashpw "x" (tokenSalt (bcrypt_hashpw "x" "s")))) :=
  ⟨by decide, by decide, by decide,
   c7_checkpw_totality dbMallory ⟨"a", "pw"⟩ ⟨1, "a", "nothash", "a@x"⟩ "x"
     (bcrypt_hashpw "x" "s") (by decide) (by decide) (by decide)⟩

/-- C6 counterexample: from a state whose confirmed accounts have pairwise
distinct logins and mails, one `confirm` call succeeds and produces two
accounts with the same login `"a"` — `confirm` copies the pending row into
`users` without any duplicate check. -/
theorem c6_counterexample :
    noDupAccounts dbConfirmDup ∧
    (confirm_registration dbConfirmDup ⟨"b@x", "123456"⟩ 50).2 = .ok "success" ∧
    ¬ noDupAccounts (confirm_registration dbConfirmDup ⟨"b@x", "123456"⟩ 50).1 :=
  ⟨by decide, rfl, by decide⟩

/-- Appending one element whose image is fresh preserves `Nodup` of the
mapped list. -/
theorem nodup_map_append_singleton {α β : Type} [DecidableEq β] (l : List α)
    (x : α) (f : α → β) (hl : (l.map f).Nodup) (hx : ∀ a ∈ l, f a ≠ f x) :
    ((l ++ [x]).map f).Nodup := by
  rw [List.map_append, List.nodup_append]
  refine ⟨hl, by simp, ?_⟩
  intro b hb hb2
  simp only [List.map_cons, List.map_nil, List.mem_singleton] at hb2
  rw [List.mem_map] at hb
  obtain ⟨a, ha, rfl⟩ := hb
  exact hx a ha hb2

/-- C6 amended: `register`, `init` and `clear_users` preserve distinctness
of logins and of mails across confirmed accounts (`login` and `get_users`
never write); `confirm_registration` is the one operation that can break it,
as `c6_counterexample` shows, because it inserts the pending row's fields
without checking the `users` table. -/
theorem c6_uniqueness_preservation (db : DB) (req data : RegisterRequest)
    (salt salt2 smtp : String) (now choice : Nat)
    (h : noDupAccounts db) :
    noDupAccounts (register db req salt).1 ∧
    noDupAccounts (init_registration db data now salt2 choice smtp).1 ∧
    noDupAccounts (clear_users db).1 := by
  refine ⟨?_, ?_, ?_⟩
  · unfold register
    by_cases h1 : (db.users.find? (fun u => u.user_login == req.user_login)).isSome
    · simp only [h1, if_true]
      exact h
    · by_cases h2 : (db.users.find? (fun u => u.user_mail == req.user_mail)).isSome
      · simp only [h1, h2, if_true, if_false, Bool.false_eq_true]
        exact h
      · have e1 : db.users.find? (fun u => u.user_login == req.user_login) = none :=
          Option.not_isSome_iff_eq_none.mp (by simpa using h1)
        have e2 : db.users.find? (fun u => u.user_mail == req.user_mail) = none :=
          Option.not_isSome_iff_eq_none.mp (by simpa using h2)
        simp only [h1, h2, Bool.false_eq_true, if_false, registerRequestUserId]
        constructor
        · refine nodup_map_append_singleton _ _ _ h.1 ?_
          intro a ha hcontra
          have := List.find?_eq_none.mp e1 a ha
          simp only [beq_iff_eq] at this
          exact this hcontra
        · refine nodup_map_append_singleton _ _ _ h.2 ?_
          intro a ha hcontra
          have := List.find?_eq_none.mp e2 a ha
          simp only [beq_iff_eq] at this
          exact this hcontra
  · unfold init_registration insertPending
    by_cases hc : (db.pending_users.any fun q => q.user_login == data.user_login ||
        q.user_mail == data.user_mail) = true
    · simp only [hc, if_true]
      exact h
    · have hc' : (db.pending_users.any fun q => q.user_login == data.user_login ||
          q.user_mail == data.user_mail) = false := by simpa using hc
      simp only [hc', Bool.false_eq_true, if_false]
      exact h
  · exact ⟨by simp [clear_users, noDupAccounts], by simp [clear_users, noDupAccounts]⟩

/-- C6 witness: the amended statement evaluated on `dbAlice`. -/
theorem c6_witness :
    noDupAccounts dbAlice ∧
    (noDupAccounts (register dbAlice ⟨"bob", "pw", "b@x"⟩ "s").1 ∧
     noDupAccounts (init_registration dbAlice ⟨"c", "pw", "c@x"⟩ 0 "s" 0 "smtp").1 ∧
     noDupAccounts (clear_users dbAlice).1) :=
  ⟨by decide,
   c6_uniqueness_preservation dbAlice ⟨"bob", "pw", "b@x"⟩ ⟨"c", "pw", "c@x"⟩
     "s" "s" "smtp" 0 0 (by decide)⟩

/-- C8: every confirmation code `str(random.randint(100000, 999999))` is the
decimal string of a value in `[100000, 999999]` — exactly six characters,
leading character nonzero — and every value of that range is attainable by
some draw of the random source. -/
theorem c8_code_format (choice v : Nat) (h1 : 100000 ≤ v) (h2 : v ≤ 999999) :
    (∃ w, 100000 ≤ w ∧ w ≤ 999999 ∧
      pyStr (randint 100000 999999 choice) = pyStr w ∧
      (pyStr w).length = 6 ∧ (pyStr w).data.head? ≠ some '0') ∧
    randint 100000 999999 (v - 100000) = v := by
  constructor
  · have hmod : choice % 900000 < 900000 := Nat.mod_lt _ (by norm_num)
    exact ⟨100000 + choice % 900000, by omega, by omega, rfl,
      pyStr_length_of_range (by omega) (by omega),
      pyStr_head_ne_zero (by omega) (by omega)⟩
  · show 100000 + (v - 100000) % 900000 = v
    have hlt : v - 100000 < 900000 := by omega
    rw [Nat.mod_eq_of_lt hlt]
    omega

/-- C8 witness: the format statement evaluated at draw 7 and target 123456. -/
theorem c8_witness :
    (100000 ≤ 123456 ∧ 123456 ≤ 999999) ∧
    ((∃ w, 100000 ≤ w ∧ w ≤ 999999 ∧
        pyStr (randint 100000 999999 7) = pyStr w ∧
        (pyStr w).length = 6 ∧ (pyStr w).data.head? ≠ some '0') ∧
      randint 100000 999999 (123456 - 100000) = 123456) :=
  ⟨⟨by decide, by decide⟩, c8_code_format 7 123456 (by decide) (by decide)⟩

/-- C9: a successful `init` appends exactly one pending row holding the
bcrypt hash of the password (never the plaintext: the stored value differs
from it) with `expires_at = now + 600` seconds, and the handler's response
and committed state are identical whatever the mail transport later does —
the acknowledgment does not wait on dispatch. -/
theorem c9_init_effects (db : DB) (data : RegisterRequest) (now : Nat)
    (salt smtp : String) (choice : Nat)
    (mailer mailer' : String → String → Bool)
    (hp : db.pending_users.any (fun q => q.user_login == data.user_login ||
        q.user_mail == data.user_mail) = false) :
    (∃ resp, init_registration db data now salt choice smtp =
      ({ db with
          pending_users := db.pending_users ++
            [{ id := db.next_pending_id
               user_login := data.user_login
               user_password := hash_password data.user_password salt
               user_mail := data.user_mail
               confirmation_code := pyStr (randint 100000 999999 choice)
               expires_at := now + 10 * 60
               created_at := now }]
          next_pending_id := db.next_pending_id + 1 },
       .ok (resp, { code := pyStr (randint 100000 999999 choice),
                    goal_user := data.user_mail }))) ∧
    hash_password data.user_password salt ≠ data.user_password ∧
    (run_init_with_mailer mailer db data now salt choice smtp).1 =
      (run_init_with_mailer mailer' db data now salt choice smtp).1 := by
  refine ⟨?_, hashpw_ne_password _ _, ?_⟩
  · refine ⟨{ message := "Code sent to email",
              code_hint := smtp ++ " " ++ data.user_mail }, ?_⟩
    unfold init_registration insertPending
    simp [hp]
  · unfold run_init_with_mailer
    cases hres : init_registration db data now salt choice smtp with
    | mk db' r =>
      cases r with
      | error e => simp
      | ok x => cases x; simp

/-- C9 witness: the init-effects statement evaluated on the empty store with
two opposite mail transports. -/
theorem c9_witness :
    ((dbEmpty.pending_users.any (fun q => q.user_login == ("alice" : String) ||
        q.user_mail == ("a@x" : String))) = false) ∧
    ((∃ resp, init_registration dbEmpty ⟨"alice", "pw", "a@x"⟩ 50 "s" 7 "smtp" =
      ({ dbEmpty with
          pending_users := dbEmpty.pending_users ++
            [{ id := dbEmpty.next_pending_id
               user_login := "alice"
               user_password := hash_password "pw" "s"
               user_mail := "a@x"
               confirmation_code := pyStr (randint 100000 999999 7)
               expires_at := 50 + 10 * 60
               created_at := 50 }]
          next_pending_id := dbEmpty.next_pending_id + 1 },
       .ok (resp, { code := pyStr (randint 100000 999999 7), goal_user := "a@x" }))) ∧
    hash_password "pw" "s" ≠ "pw" ∧
    (run_init_with_mailer (fun _ _ => true) dbEmpty ⟨"alice", "pw", "a@x"⟩ 50 "s" 7 "smtp").1 =
      (run_init_with_mailer (fun _ _ => false) dbEmpty ⟨"alice", "pw", "a@x"⟩ 50 "s" 7 "smtp").1) :=
  ⟨by decide,
   c9_init_effects dbEmpty ⟨"alice", "pw", "a@x"⟩ 50 "s" "smtp" 7
     (fun _ _ => true) (fun _ _ => false) (by decide)⟩

/-- A matching, unexpired pending row makes `confirm` insert the account and
delete the row. -/
theorem confirm_found (db : DB) (c : ConfirmRequest) (now : Nat) (p : PendingUser)
    (hf : db.pending_users.find? (fun q =>
        q.user_mail == c.email && q.confirmation_code == c.code) = some p)
    (hexp : ¬ p.expires_at < now) :
    confirm_registration db c now =
      ({ db with
          users := db.users ++
            [⟨db.next_user_id, p.user_login, p.user_password, p.user_mail⟩]
          pending_users := db.pending_users.filter (fun q => q.id ≠ p.id)
          next_user_id := db.next_user_id + 1 }, .ok "success") := by
  simp only [confirm_registration, hf, hexp, if_false]

/-- No matching pending row makes `confirm` fail and leave the state as is. -/
theorem confirm_not_found (db : DB) (c : ConfirmRequest) (now : Nat)
    (hf : db.pending_users.find? (fun q =>
        q.user_mail == c.email && q.confirmation_code == c.code) = none) :
    confirm_registration db c now =
      (db, .error (.http 400 "Invalid or expired code")) := by
  simp only [confirm_registration, hf]

/-- After staging a fresh pending row over a conflict-free state, an
immediate confirm with the issued code succeeds, leaves exactly one matching
account and no pending row for that email, and a repeated confirm fails. -/
theorem init_confirm_roundtrip_aux (db : DB) (data : RegisterRequest) (t : Nat)
    (code hashv : String)
    (hu : db.users.any (fun u => u.user_login == data.user_login ||
        u.user_mail == data.user_mail) = false)
    (hp : db.pending_users.any (fun q => q.user_login == data.user_login ||
        q.user_mail == data.user_mail) = false) :
    (confirm_registration
        { db with
          pending_users := db.pending_users ++
            [⟨db.next_pending_id, data.user_login, hashv, data.user_mail,
              code, t + 10 * 60, t⟩]
          next_pending_id := db.next_pending_id + 1 }
        ⟨data.user_mail, code⟩ t).2 = .ok "success" ∧
    (confirm_registration
        { db with
          pending_users := db.pending_users ++
            [⟨db.next_pending_id, data.user_login, hashv, data.user_mail,
              code, t + 10 * 60, t⟩]
          next_pending_id := db.next_pending_id + 1 }
        ⟨data.user_mail, code⟩ t).1.users.countP
      (fun u => u.user_login == data.user_login && u.user_mail == data.user_mail &&
        u.user_password == hashv) = 1 ∧
    (confirm_registration
        { db with
          pending_users := db.pending_users ++
            [⟨db.next_pending_id, data.user_login, hashv, data.user_mail,
              code, t + 10 * 60, t⟩]
          next_pending_id := db.next_pending_id + 1 }
        ⟨data.user_mail, code⟩ t).1.pending_users.countP
      (fun q => q.user_mail == data.user_mail) = 0 ∧
    confirm_registration
        (confirm_registration
          { db with
            pending_users := db.pending_users ++
              [⟨db.next_pending_id, data.user_login, hashv, data.user_mail,
                code, t + 10 * 60, t⟩]
            next_pending_id := db.next_pending_id + 1 }
          ⟨data.user_mail, code⟩ t).1
        ⟨data.user_mail, code⟩ t =
      ((confirm_registration
          { db with
            pending_users := db.pending_users ++
              [⟨db.next_pending_id, data.user_login, hashv, data.user_mail,
                code, t + 10 * 60, t⟩]
            next_pending_id := db.next_pending_id + 1 }
          ⟨data.user_mail, code⟩ t).1,
        .error (.http 400 "Invalid or expired code")) := by
  have hmail : ∀ q ∈ db.pending_users, (q.user_mail == data.user_mail) = false := by
    intro q hq
    have h := List.any_eq_false.mp hp q hq
    simp only [Bool.or_eq_true, not_or] at h
    simpa using h.2
  have huserL : ∀ u ∈ db.users, (u.user_login == data.user_login) = false := by
    intro u hmem
    have h := List.any_eq_false.mp hu u hmem
    simp only [Bool.or_eq_true, not_or] at h
    simpa using h.1
  set P : PendingUser :=
    ⟨db.next_pending_id, data.user_login, hashv, data.user_mail,
      code, t + 10 * 60, t⟩ with hP
  set db₁ : DB :=
    { db with pending_users := db.pending_users ++ [P],
              next_pending_id := db.next_pending_id + 1 } with hdb₁
  have hfind : db₁.pending_users.find?
      (fun q => q.user_mail == data.user_mail && q.confirmation_code == code) = some P := by
    show (db.pending_users ++ [P]).find? _ = some P
    rw [List.find?_append]
    have h1 : db.pending_users.find?
        (fun q => q.user_mail == data.user_mail && q.confirmation_code == code) = none := by
      rw [List.find?_eq_none]
      intro q hq
      simp [hmail q hq]
    rw [h1, Option.none_or]
    exact List.find?_cons_of_pos _ (by simp [hP])
  have hc1 := confirm_found db₁ ⟨data.user_mail, code⟩ t P hfind
    (show ¬ (t + 10 * 60 < t) by omega)
  refine ⟨?_, ?_, ?_, ?_⟩
  · rw [hc1]
  · rw [hc1]
    show (db.users ++
      [(⟨db.next_user_id, data.user_login, hashv, data.user_mail⟩ : User)]).countP _ = 1
    rw [List.countP_append]
    have h0 : db.users.countP
        (fun u => u.user_login == data.user_login && u.user_mail == data.user_mail &&
          u.user_password == hashv) = 0 := by
      rw [List.countP_eq_zero]
      intro u hmem
      simp [huserL u hmem]
    rw [h0]
    simp [List.countP_cons]
  · rw [hc1]
    show ((db.pending_users ++ [P]).filter (fun q => q.id ≠ db.next_pending_id)).countP _ = 0
    rw [List.countP_eq_zero]
    intro q hq
    have hqmem := (List.mem_filter.mp hq).1
    rw [List.mem_append] at hqmem
    cases hqmem with
    | inl h => simp [hmail q h]
    | inr h =>
      have h2 := (List.mem_filter.mp hq).2
      simp at h
      subst h
      simp [hP] at h2
  · rw [hc1]
    apply confirm_not_found
    show ((db.pending_users ++ [P]).filter (fun q => q.id ≠ db.next_pending_id)).find?
      (fun q => q.user_mail == data.user_mail && q.confirmation_code == code) = none
    rw [List.find?_eq_none]
    intro q hq
    have hqmem := (List.mem_filter.mp hq).1
    rw [List.mem_append] at hqmem
    cases hqmem with
    | inl h => simp [hmail q h]
    | inr h =>
      have h2 := (List.mem_filter.mp hq).2
      simp at h
      subst h
      simp [hP] at h2

/-- C1: from a state with no conflicting account or pending row, `init`
stages one pending row and issues a code; an immediate `confirm` with that
email and code succeeds and yields exactly one account carrying the login,
email and password hash, with zero pending rows left for that email; a
second `confirm` with the same email and code then fails with HTTP 400
"Invalid or expired code" and changes nothing. -/
theorem c1_init_then_confirm (db : DB) (data : RegisterRequest) (t : Nat)
    (salt smtp : String) (choice : Nat)
    (hu : db.users.any (fun u => u.user_login == data.user_login ||
        u.user_mail == data.user_mail) = false)
    (hp : db.pending_users.any (fun q => q.user_login == data.user_login ||
        q.user_mail == data.user_mail) = false) :
    ∃ db₁ resp code,
      init_registration db data t salt choice smtp =
        (db₁, .ok (resp, { code := code, goal_user := data.user_mail })) ∧
      (confirm_registration db₁ ⟨data.user_mail, code⟩ t).2 = .ok "success" ∧
      (confirm_registration db₁ ⟨data.user_mail, code⟩ t).1.users.countP
        (fun u => u.user_login == data.user_login && u.user_mail == data.user_mail &&
          u.user_password == hash_password data.user_password salt) = 1 ∧
      (confirm_registration db₁ ⟨data.user_mail, code⟩ t).1.pending_users.countP
        (fun q => q.user_mail == data.user_mail) = 0 ∧
      confirm_registration (confirm_registration db₁ ⟨data.user_mail, code⟩ t).1
          ⟨data.user_mail, code⟩ t =
        ((confirm_registration db₁ ⟨data.user_mail, code⟩ t).1,
          .error (.http 400 "Invalid or expired code")) := by
  have hinit : init_registration db data t salt choice smtp =
      ({ db with
        pending_users := db.pending_users ++
          [⟨db.next_pending_id, data.user_login, hash_password data.user_password salt,
            data.user_mail, pyStr (randint 100000 999999 choice), t + 10 * 60, t⟩]
        next_pending_id := db.next_pending_id + 1 },
       .ok (⟨"Code sent to email", smtp ++ " " ++ data.user_mail⟩,
            ⟨pyStr (randint 100000 999999 choice), data.user_mail⟩)) := by
    unfold init_registration insertPending
    simp [hp]
  have haux := init_confirm_roundtrip_aux db data t
    (pyStr (randint 100000 999999 choice)) (hash_password data.user_password salt) hu hp
  exact ⟨_, _, _, hinit, haux.1, haux.2.1, haux.2.2.1, haux.2.2.2⟩

/-- C1 witness: the init-confirm round trip evaluated on the empty store. -/
theorem c1_witness :
    (dbEmpty.users.any (fun u => u.user_login == ("alice" : String) ||
        u.user_mail == ("a@x" : String)) = false) ∧
    (dbEmpty.pending_users.any (fun q => q.user_login == ("alice" : String) ||
        q.user_mail == ("a@x" : String)) = false) ∧
    (∃ db₁ resp code,
      init_registration dbEmpty ⟨"alice", "pw", "a@x"⟩ 50 "s" 7 "smtp" =
        (db₁, .ok (resp, { code := code, goal_user := "a@x" })) ∧
      (confirm_registration db₁ ⟨"a@x", code⟩ 50).2 = .ok "success" ∧
      (confirm_registration db₁ ⟨"a@x", code⟩ 50).1.users.countP
        (fun u => u.user_login == ("alice" : String) && u.user_mail == ("a@x" : String) &&
          u.user_password == hash_password "pw" "s") = 1 ∧
      (confirm_registration db₁ ⟨"a@x", code⟩ 50).1.pending_users.countP
        (fun q => q.user_mail == ("a@x" : String)) = 0 ∧
      confirm_registration (confirm_registration db₁ ⟨"a@x", code⟩ 50).1
          ⟨"a@x", code⟩ 50 =
        ((confirm_registration db₁ ⟨"a@x", code⟩ 50).1,
          .error (.http 400 "Invalid or expired code"))) :=
  ⟨by decide, by decide,
   c1_init_then_confirm dbEmpty ⟨"alice", "pw", "a@x"⟩ 50 "s" "smtp" 7
     (by decide) (by decide)⟩

end Smartbook
